import Mathlib

/-!
Verification development for the card-prediction bot
(main.py, excel_importer.py).

Messages are modelled as `List Char`; the regex-based extractors of the
source are embedded as left-to-right scanning functions with the same
leftmost-match semantics.  The threshold comparisons (`> 6.5`, `< 4.5`,
`> 10.5`) are carried out in `ℚ` (the constants written `mkRat 13 2`,
`mkRat 9 2`, `mkRat 21 2`), exactly as the source compares Python ints
against these float literals, which are all binary-exact.
-/

namespace PredBot

/-- Converts a digit run (as matched by a regex digit class) to the integer
Python's `int` would produce. -/
def digitsToNat (ds : List Char) : Nat :=
  ds.foldl (fun acc c => acc * 10 + (c.toNat - '0'.toNat)) 0

/-- Whether `pat` occurs as a prefix of `s` (Python `str.startswith`). -/
def beginsWith : List Char → List Char → Bool
  | [], _ => true
  | _ :: _, [] => false
  | p :: ps, c :: cs => p == c && beginsWith ps cs

/-- Whether `pat` occurs contiguously anywhere in `s` (Python `in` on str). -/
def containsSeq (pat : List Char) : List Char → Bool
  | [] => beginsWith pat []
  | c :: cs => beginsWith pat (c :: cs) || containsSeq pat cs

/-- The suit character class of the source's card regex
`[♠️♥️♦️♣️♠♥♦♣]`: each emoji suit is a base glyph plus the variation
selector U+FE0F, so the class is the four base suits plus U+FE0F. -/
def isSuitChar (c : Char) : Bool :=
  c == '♠' || c == '♥' || c == '♦' || c == '♣' || c == '️'

/-- excel_importer.ExcelPredictionManager.extract_points_and_winner:
`re.search(r"[✅🔰]?(\d+)\(", text)` — the first (leftmost) digit run
immediately followed by an opening parenthesis; the optional marker does
not change the captured digits.  Returns only the first component of the
source's `(point, None)` pair. -/
def extract_points_and_winner : List Char → Option Nat
  | [] => none
  | c :: rest =>
    if c.isDigit then
      match List.dropWhile Char.isDigit (c :: rest) with
      | '(' :: _ => some (digitsToNat (List.takeWhile Char.isDigit (c :: rest)))
      | _ => extract_points_and_winner rest
    else extract_points_and_winner rest

/-- One step of `re.findall(r"[✅🔰]?\d+\(([^)]+)\)", text)`: every
non-overlapping digit run followed by a parenthesised non-empty group,
paired as (total, group content).  `fuel` bounds the scan; it is set to
the text length, which is enough because every recursive call consumes at
least one character. -/
def findGroupsAux : Nat → List Char → List (Nat × List Char)
  | 0, _ => []
  | _ + 1, [] => []
  | fuel + 1, c :: rest =>
    if c.isDigit then
      match List.dropWhile Char.isDigit (c :: rest) with
      | '(' :: tail =>
        match List.dropWhile (fun x => x ≠ ')') tail,
              List.takeWhile (fun x => x ≠ ')') tail with
        | ')' :: tail2, k :: ks =>
          (digitsToNat (List.takeWhile Char.isDigit (c :: rest)), k :: ks) ::
            findGroupsAux fuel tail2
        | _, _ => findGroupsAux fuel rest
      | _ => findGroupsAux fuel rest
    else findGroupsAux fuel rest

/-- All card-group matches of a message, in order of appearance. -/
def findGroups (s : List Char) : List (Nat × List Char) :=
  findGroupsAux s.length s

/-- `re.findall(r"(\d+|[AKQJ])[♠️♥️♦️♣️♠♥♦♣]", group)`: card values of a
group's content, left to right. -/
def extractCardsAux : Nat → List Char → List (List Char)
  | 0, _ => []
  | _ + 1, [] => []
  | fuel + 1, c :: rest =>
    if c.isDigit then
      match List.dropWhile Char.isDigit (c :: rest) with
      | x :: tail =>
        if isSuitChar x then
          List.takeWhile Char.isDigit (c :: rest) :: extractCardsAux fuel tail
        else extractCardsAux fuel rest
      | [] => []
    else if c == 'A' || c == 'K' || c == 'Q' || c == 'J' then
      match rest with
      | x :: tail =>
        if isSuitChar x then [c] :: extractCardsAux fuel tail
        else extractCardsAux fuel rest
      | [] => []
    else extractCardsAux fuel rest

/-- Card values of a group content (see `extractCardsAux`). -/
def extractCards (s : List Char) : List (List Char) :=
  extractCardsAux s.length s

/-- main.extract_t_value: `re.search(r'#T(\d+(?:\.\d+)?)', text)` as an
exact rational (the source converts the capture with `float`; the decimal
numeral `d.f` denotes the rational `(d * 10^k + f) / 10^k`, written with
`mkRat`). -/
def extract_t_value : List Char → Option ℚ
  | [] => none
  | '#' :: 'T' :: rest =>
    match rest with
    | d :: _ =>
      if d.isDigit then
        match List.dropWhile Char.isDigit rest with
        | '.' :: rest2 =>
          match rest2 with
          | f :: _ =>
            if f.isDigit then
              some (mkRat
                (digitsToNat (List.takeWhile Char.isDigit rest) *
                    10 ^ (List.takeWhile Char.isDigit rest2).length +
                  digitsToNat (List.takeWhile Char.isDigit rest2))
                (10 ^ (List.takeWhile Char.isDigit rest2).length))
            else some ((digitsToNat (List.takeWhile Char.isDigit rest) : ℚ))
          | [] => some ((digitsToNat (List.takeWhile Char.isDigit rest) : ℚ))
        | _ => some ((digitsToNat (List.takeWhile Char.isDigit rest) : ℚ))
      else extract_t_value ('T' :: rest)
    | [] => none
  | _ :: rest => extract_t_value rest

/-- main.is_finalized_message: contains ✅ or 🔰. -/
def is_finalized_message (msg : List Char) : Bool :=
  msg.contains '✅' || msg.contains '🔰'

/-- main.is_tie_game: contains the compound tie marker 🟣#X. -/
def is_tie_game (msg : List Char) : Bool :=
  containsSeq ['🟣', '#', 'X'] msg

/-- main.has_six_in_first_group: the first card group contains a card of
value 6. -/
def has_six_in_first_group (msg : List Char) : Bool :=
  match (findGroups msg).head? with
  | some g => (extractCards g.2).contains ['6']
  | none => false

/-- main.has_six_in_both_groups: both the first and second card groups
contain a card of value 6. -/
def has_six_in_both_groups (msg : List Char) : Bool :=
  match findGroups msg with
  | g1 :: g2 :: _ =>
    (extractCards g1.2).contains ['6'] && (extractCards g2.2).contains ['6']
  | _ => false

/-- main.count_sixes_in_groups: total number of value-6 cards over all
groups. -/
def count_sixes_in_groups (msg : List Char) : Nat :=
  ((findGroups msg).map
    (fun g => ((extractCards g.2).filter (fun v => v == ['6'])).length)).sum

/-- main.get_first_group_total: total of the first group, `-1` when no
group matches. -/
def get_first_group_total (msg : List Char) : Int :=
  match (findGroups msg).head? with
  | some g => (g.1 : Int)
  | none => -1

/-- main.should_skip_prediction: tie, or a 6 in both groups, or at least
two 6 cards overall, or first-group total 6 together with a 6 card in the
first group. -/
def should_skip_prediction (msg : List Char) : Bool :=
  is_tie_game msg ||
  has_six_in_both_groups msg ||
  decide (2 ≤ count_sixes_in_groups msg) ||
  (get_first_group_total msg == 6 && has_six_in_first_group msg)

/-- Modelled from the spec: `predictor.extract_game_number` lives in
`predictor.py`, which is not part of the sources at hand; per the spec the
parser extracts "a numeric sequence identifier" from the leading game
number token (messages read `#N881. ...`), and extraction failure means
the message is ignored.  We scan for the first `#N` immediately followed
by digits and return that digit run. -/
def extract_game_number : List Char → Option Nat
  | [] => none
  | '#' :: 'N' :: rest =>
    match rest with
    | d :: _ =>
      if d.isDigit then some (digitsToNat (List.takeWhile Char.isDigit rest))
      else extract_game_number ('N' :: rest)
    | [] => none
  | _ :: rest => extract_game_number rest

/-- The two predicted outcome categories ("joueur" / "banquier"). -/
inductive Winner where
  | joueur
  | banquier
deriving DecidableEq, Repr

/-- Terminal status tokens: `success k` stands for the source's
`VERIFICATION_EMOJIS[k]` (✅0️⃣, ✅1️⃣, …), `failure` for ❌. -/
inductive PredStatus where
  | success (offsetIndex : Nat)
  | failure
deriving DecidableEq, Repr

/-- The trigger part of main.handle_new_message (the steps after the
verification pass): on a finalized, non-skipped message whose first group
contains a 6 and which carries a #T value, register `game_number +
a_offset` with outcome joueur when #T > 10.5 and banquier otherwise,
unless that number is already registered.  Returns the registered
(predicted number, outcome), or `none` when no prediction is made. -/
def handle_new_message_trigger (aOffset : Nat) (registered : List Nat)
    (msg : List Char) : Option (Nat × Winner) :=
  match extract_game_number msg with
  | none => none
  | some gameNumber =>
    if is_finalized_message msg then
      if should_skip_prediction msg then none
      else if has_six_in_first_group msg then
        match extract_t_value msg with
        | none => none
        | some t =>
          if List.contains registered (gameNumber + aOffset) then none
          else if t > mkRat 21 2 then some (gameNumber + aOffset, Winner.joueur)
          else some (gameNumber + aOffset, Winner.banquier)
      else none
    else none

/-- One live-tracker record of `active_predictions` (main.py): `expected`
is the "expected" field, `attempts` the "attempts" field (0 when the key
is absent, as on registration), `verified`/`status` the terminal flags,
and `hasRefs` whether both "message_id" and "channel_id" are present. -/
structure LivePred where
  expected : Winner
  attempts : Nat
  verified : Bool
  status : Option PredStatus
  hasRefs : Bool
deriving DecidableEq, Repr

/-- The record registered by main.handle_new_message: no "attempts" key
(so attempts reads as 0), not verified, no status, message references
stored. -/
def fresh_live_pred (expected : Winner) : LivePred :=
  { expected := expected, attempts := 0, verified := false,
    status := none, hasRefs := true }

/-- main.verify_active_predictions, restricted to one record of the
registry (the loop body for the record keyed `predNumero`), on one
incoming message.  `editOk` tells whether the transport edit of the
delivered message succeeds; state written inside the source's `try`
after the edit call is only applied when `editOk` is true, while the
expiry branch writes its state outside the `try`. -/
def verify_active_prediction (rOffset : Nat) (editOk : Bool)
    (gameNumber : Nat) (msg : List Char) (predNumero : Nat)
    (pred : LivePred) : LivePred :=
  if is_finalized_message msg = false then pred
  else if pred.verified then pred
  else if gameNumber < predNumero then pred
  else
    if rOffset < gameNumber - predNumero then
      { pred with verified := true, status := some PredStatus.failure,
                  attempts := rOffset + 1 }
    else if pred.attempts < gameNumber - predNumero then
      if pred.hasRefs = false then pred
      else
        match extract_points_and_winner msg with
        | none => pred
        | some point =>
          if (match pred.expected with
              | Winner.joueur => decide ((point : ℚ) > mkRat 13 2)
              | Winner.banquier => decide ((point : ℚ) < mkRat 9 2)) then
            if editOk then
              { pred with attempts := gameNumber - predNumero,
                          verified := true,
                          status :=
                            some (PredStatus.success (gameNumber - predNumero)) }
            else { pred with attempts := gameNumber - predNumero }
          else if rOffset ≤ gameNumber - predNumero then
            if editOk then
              { pred with attempts := gameNumber - predNumero,
                          verified := true,
                          status := some PredStatus.failure }
            else { pred with attempts := gameNumber - predNumero }
          else { pred with attempts := gameNumber - predNumero }
    else pred

/-- One imported prediction record of excel_importer's `predictions`
map: `numero`, `victoire`, `launched`, `verified`, `current_offset`
(0 when absent, as set by mark_as_launched), the `skipped_consecutive`
flag, and whether "message_id"/"channel_id" are present. -/
structure ExcelPred where
  numero : Int
  victoire : List Char
  launched : Bool
  verified : Bool
  currentOffset : Int
  skippedConsecutive : Bool
  hasRefs : Bool
deriving DecidableEq, Repr

/-- A record as created by excel_importer.import_excel: not launched,
no message references, no offset yet (reads as 0). -/
def fresh_excel_pred (n : Int) (victoire : List Char) : ExcelPred :=
  { numero := n, victoire := victoire, launched := false, verified := false,
    currentOffset := 0, skippedConsecutive := false, hasRefs := false }

/-- The row loop of excel_importer.import_excel: rows are (numero,
victoire) pairs; a numero equal to the previously retained numero plus
one is dropped and does not update the comparison point (`last_numero`).
Returns the built (key, record) sequence, keys being the numeros. -/
def import_excel_rows : Option Int → List (Int × List Char) → List (Int × ExcelPred)
  | _, [] => []
  | last, (n, v) :: rest =>
    match last with
    | some l =>
      if n = l + 1 then import_excel_rows (some l) rest
      else (n, fresh_excel_pred n v) :: import_excel_rows (some n) rest
    | none => (n, fresh_excel_pred n v) :: import_excel_rows (some n) rest

/-- excel_importer.import_excel on the numero/victoire columns (no
prediction initially retained as comparison point). -/
def import_excel (rows : List (Int × List Char)) : List (Int × ExcelPred) :=
  import_excel_rows none rows

/-- `expected = "banquier" if "banquier" in expected_winner.lower() else
"joueur"` from excel_importer.verify_excel_prediction. -/
def expected_of_victoire (victoire : List Char) : Winner :=
  if containsSeq ['b', 'a', 'n', 'q', 'u', 'i', 'e', 'r']
      (victoire.map Char.toLower) then Winner.banquier
  else Winner.joueur

/-- The offset reconciliation of verify_excel_prediction: when the
offset passed in does not equal the real offset computed from the game
number, the real offset is used. -/
def reconciled_offset (gameNumber predictedNumero currentOffset : Int) : Int :=
  if currentOffset ≠ gameNumber - predictedNumero then gameNumber - predictedNumero
  else currentOffset

/-- excel_importer.ExcelPredictionManager.verify_excel_prediction:
returns (status, should_continue) exactly as the source: waiting returns
(none, true), a success returns the success token for the real offset,
overflow or definitive failure returns (failure, false). -/
def verify_excel_prediction (gameNumber : Int) (msg : List Char)
    (predictedNumero : Int) (expectedWinner : List Char)
    (currentOffset : Int) : Option PredStatus × Bool :=
  if gameNumber - predictedNumero < 0 then (none, true)
  else if 2 < gameNumber - predictedNumero then (some PredStatus.failure, false)
  else
    let cur := reconciled_offset gameNumber predictedNumero currentOffset
    if gameNumber ≠ predictedNumero + cur then (none, true)
    else if msg.contains '⏰' || msg.contains '🕐' then (none, true)
    else if (msg.contains '✅' || msg.contains '🔰') = false then (none, true)
    else
      match extract_points_and_winner msg with
      | none =>
        if msg.contains '✅' && !msg.contains '🔰' then
          (some PredStatus.failure, false)
        else (none, true)
      | some point =>
        if (match expected_of_victoire expectedWinner with
            | Winner.joueur => decide (7 ≤ point)
            | Winner.banquier => decide (point ≤ 4)) then
          if gameNumber - predictedNumero = 0 then (some (PredStatus.success 0), false)
          else if gameNumber - predictedNumero = 1 then (some (PredStatus.success 1), false)
          else if gameNumber - predictedNumero = 2 then (some (PredStatus.success 2), false)
          else (some (PredStatus.success 2), false)
        else if cur < 2 then (none, true)
        else (some PredStatus.failure, false)

/-- The `while current_offset <= 2 and game_number > pred_numero +
current_offset` loop of main.verify_excel_predictions.  The guard
`off ≤ 2` bounds the loop to at most three iterations from any
reachable offset, so fuel 4 is exact. -/
def gap_skip_loop : Nat → Int → Int → Int → Int
  | 0, _, _, off => off
  | fuel + 1, gameNumber, predNumero, off =>
    if off ≤ 2 ∧ predNumero + off < gameNumber then
      gap_skip_loop fuel gameNumber predNumero (off + 1)
    else off

/-- The gap-skip realignment of main.verify_excel_predictions. -/
def gap_skip (gameNumber predNumero off : Int) : Int :=
  gap_skip_loop 4 gameNumber predNumero off

/-- main.update_prediction_status: when the record has message
references, the transport edit is attempted and `verified` is set only
when that edit succeeds (`editOk`); otherwise nothing changes. -/
def update_prediction_status (editOk : Bool) (pred : ExcelPred) : ExcelPred :=
  if pred.hasRefs && editOk then { pred with verified := true } else pred

/-- main.verify_excel_predictions, restricted to one record of the map
(the loop body), on one incoming message.  Returns the updated record
and the status passed to update_prediction_status, when one is emitted. -/
def verify_excel_predictions_step (editOk : Bool) (gameNumber : Int)
    (msg : List Char) (pred : ExcelPred) : ExcelPred × Option PredStatus :=
  if pred.launched = false ∨ pred.verified = true then (pred, none)
  else
    match (if pred.numero + pred.currentOffset < gameNumber then
             (if 2 < gap_skip gameNumber pred.numero pred.currentOffset then none
              else some { pred with
                currentOffset := gap_skip gameNumber pred.numero pred.currentOffset })
           else some pred : Option ExcelPred) with
    | none => (update_prediction_status editOk pred, some PredStatus.failure)
    | some pred1 =>
      match verify_excel_prediction gameNumber msg pred.numero pred1.victoire
              pred1.currentOffset with
      | (some s, _) => (update_prediction_status editOk pred1, some s)
      | (none, shouldContinue) =>
        if shouldContinue = true ∧ gameNumber = pred.numero + pred1.currentOffset then
          if pred1.currentOffset + 1 ≤ 2 then
            ({ pred1 with currentOffset := pred1.currentOffset + 1 }, none)
          else (update_prediction_status editOk pred1, some PredStatus.failure)
        else (pred1, none)

/-- The consecutive filter of excel_importer.find_close_prediction:
`self.last_launched_numero` must be truthy (non-None and non-zero) and
the candidate must equal it plus one. -/
def isConsecutiveToLast (last : Option Int) (numero : Int) : Bool :=
  match last with
  | some l => decide (l ≠ 0 ∧ numero = l + 1)
  | none => false

/-- `diff < min_diff` against the running minimum (`float('inf')`
initially, modelled as `none`). -/
def improvesMin (minDiff : Option Int) (diff : Int) : Bool :=
  match minDiff with
  | none => true
  | some m => decide (diff < m)

/-- The scan loop of excel_importer.find_close_prediction: walks the
(key, record) sequence carrying the running minimum difference and the
closest candidate found so far; consecutive-to-last candidates inside
the tolerance window are marked launched and skipped_consecutive and the
scan continues.  Returns the updated record sequence and the selected
{key, prediction} pair, if any. -/
def find_close_prediction_aux (last : Option Int) (currentNumber tolerance : Int) :
    List (Int × ExcelPred) → Option Int → Option (Int × ExcelPred) →
    List (Int × ExcelPred) × Option (Int × ExcelPred)
  | [], _, closest => ([], closest)
  | (k, p) :: rest, minDiff, closest =>
    if p.launched then
      let r := find_close_prediction_aux last currentNumber tolerance rest minDiff closest
      ((k, p) :: r.1, r.2)
    else
      if 0 ≤ p.numero - currentNumber ∧ p.numero - currentNumber ≤ tolerance then
        if isConsecutiveToLast last p.numero then
          let r := find_close_prediction_aux last currentNumber tolerance rest minDiff closest
          ((k, { p with launched := true, skippedConsecutive := true }) :: r.1, r.2)
        else if improvesMin minDiff (p.numero - currentNumber) then
          let r := find_close_prediction_aux last currentNumber tolerance rest
            (some (p.numero - currentNumber)) (some (k, p))
          ((k, p) :: r.1, r.2)
        else
          let r := find_close_prediction_aux last currentNumber tolerance rest minDiff closest
          ((k, p) :: r.1, r.2)
      else
        let r := find_close_prediction_aux last currentNumber tolerance rest minDiff closest
        ((k, p) :: r.1, r.2)

/-- excel_importer.find_close_prediction with its default tolerance 4. -/
def find_close_prediction (last : Option Int) (currentNumber : Int)
    (preds : List (Int × ExcelPred)) :
    List (Int × ExcelPred) × Option (Int × ExcelPred) :=
  find_close_prediction_aux last currentNumber 4 preds none none

/-- The `/r` command handler main.set_r_offset: given the current
r_offset and the parsed argument (none when the command carries no
value), returns the resulting r_offset and whether the new value was
accepted and saved. -/
def set_r_offset (current : Int) (newValue : Option Int) : Int × Bool :=
  match newValue with
  | none => (current, false)
  | some v => if v < 0 ∨ 10 < v then (current, false) else (v, true)

/-- The spec's end-to-end scenario text `#N881. 6(A♠6♠) ✅ 7(3♦4♣) #T12 `. -/
def msg881 : List Char :=
  ['#', 'N', '8', '8', '1', '.', ' ', '6', '(', 'A', '♠', '6', '♠', ')', ' ',
   '✅', ' ', '7', '(', '3', '♦', '4', '♣', ')', ' ', '#', 'T', '1', '2', ' ']

/-- The scenario text with first-group total 7 instead of 6
(`#N881. 7(A♠6♠) ✅ 7(3♦4♣) #T12 `), so that skip rule "total 6 with a
6 card" does not fire. -/
def msg881A : List Char :=
  ['#', 'N', '8', '8', '1', '.', ' ', '7', '(', 'A', '♠', '6', '♠', ')', ' ',
   '✅', ' ', '7', '(', '3', '♦', '4', '♣', ')', ' ', '#', 'T', '1', '2', ' ']

/-- A finalized result for game 882 with first-group point value 8
(`#N882. 8(K♦9♥) ✅ 4(2♠3♠) #T9`). -/
def msg882 : List Char :=
  ['#', 'N', '8', '8', '2', '.', ' ', '8', '(', 'K', '♦', '9', '♥', ')', ' ',
   '✅', ' ', '4', '(', '2', '♠', '3', '♠', ')', ' ', '#', 'T', '9']

/-- A finalized result for game 883 with first-group point value 8
(`#N883. 8(K♦9♥) ✅ 4(2♠3♠) #T9`). -/
def msg883 : List Char :=
  ['#', 'N', '8', '8', '3', '.', ' ', '8', '(', 'K', '♦', '9', '♥', ')', ' ',
   '✅', ' ', '4', '(', '2', '♠', '3', '♠', ')', ' ', '#', 'T', '9']

/-- The victoire column value "joueur". -/
def victJoueur : List Char := ['j', 'o', 'u', 'e', 'u', 'r']

/-- The victoire column value "banquier". -/
def victBanquier : List Char := ['b', 'a', 'n', 'q', 'u', 'i', 'e', 'r']

/-- The imported record of the gap-skip scenario: numero 100, launched
at offset 0, message references stored. -/
def predHundred : ExcelPred :=
  { fresh_excel_pred 100 victJoueur with launched := true, hasRefs := true }

/-- C1: counterexample to the spec's end-to-end scenario.  Its message
has first-group total 6 AND a 6 card in the first group, so
should_skip_prediction fires and handle_new_message registers no
prediction at all for 882 (with a_offset = 1 and an empty registry). -/
theorem c1_counterexample :
    should_skip_prediction msg881 = true ∧
    handle_new_message_trigger 1 [] msg881 = none := by
  exact ⟨by decide, by decide⟩

/-- C1 (amended): with first-group total 7 instead of 6 (so the
"total 6 with a 6 card" skip rule does not fire), the trigger registers
predicted_id 882 with outcome joueur (#T = 12 > 10.5); the live tracker
never evaluates at offset 0, so the finalized message for game 882 with
first-group value 8 is a no-op on the fresh record, and the finalized
message for game 883 with first-group value 8 resolves it to SUCCESS at
attempt index 1 (token ✅1️⃣), the transport edit succeeding. -/
theorem c1_amended_holds :
    handle_new_message_trigger 1 [] msg881A = some (882, Winner.joueur)
    ∧ verify_active_prediction 2 true 882 msg882 882 (fresh_live_pred Winner.joueur)
        = fresh_live_pred Winner.joueur
    ∧ verify_active_prediction 2 true 883 msg883 882 (fresh_live_pred Winner.joueur)
        = { expected := Winner.joueur, attempts := 1, verified := true,
            status := some (PredStatus.success 1), hasRefs := true } := by
  exact ⟨by decide, by decide, by decide⟩

/-- C2: counterexample.  On a message carrying ✅ but no 🔰 from which no
first-group point can be extracted, the imported tracker does emit a
FAILURE as a consequence of the extraction failure alone. -/
theorem c2_counterexample :
    extract_points_and_winner ['✅'] = none ∧
    verify_excel_prediction 882 ['✅'] 882 victJoueur 0
      = (some PredStatus.failure, false) := by
  exact ⟨by decide, by decide⟩

/-- C5: gap-skip forced failure.  For the imported record at numero 100
with stored offset 0, an incoming game number 103 advances the offset
step by step to 3 (the realignment loop), and since 3 exceeds the hard
cap of 2 the record is resolved to FAILURE — for EVERY message text, so
no point value is ever extracted or compared for the skipped numbers. -/
theorem c5_gap_skip_failure :
    gap_skip 103 100 0 = 3
    ∧ gap_skip_loop 3 103 100 1 = 3
    ∧ gap_skip_loop 2 103 100 2 = 3
    ∧ (∀ msg : List Char,
        verify_excel_predictions_step true 103 msg predHundred
          = ({ predHundred with verified := true }, some PredStatus.failure)) := by
  exact ⟨by decide, by decide, by decide, fun _ => rfl⟩

/-- C9: the /r configuration command rejects any integer outside 0..10,
leaving r_offset unchanged and unsaved, and accepts and saves any value
inside 0..10. -/
theorem c9_r_offset_validation :
    ∀ (current v : Int),
      ((v < 0 ∨ 10 < v) → set_r_offset current (some v) = (current, false))
      ∧ (0 ≤ v → v ≤ 10 → set_r_offset current (some v) = (v, true)) := by
  intro current v
  constructor
  · intro h
    simp only [set_r_offset, if_pos h]
  · intro h1 h2
    simp only [set_r_offset]
    rw [if_neg (by omega)]

/-- C9 witness. -/
theorem c9_r_offset_validation_witness :
    set_r_offset 2 (some 11) = (2, false) ∧ set_r_offset 2 (some 3) = (3, true) :=
  ⟨(c9_r_offset_validation 2 11).1 (Or.inr (by decide)),
   (c9_r_offset_validation 2 3).2 (by decide) (by decide)⟩

/-- C8: terminal finality.  A record whose verified flag is set is
skipped by both verification loops: the live tracker step and the
imported tracker step return it unchanged (and emit no status). -/
theorem c8_terminal_finality :
    (∀ (rOffset : Nat) (editOk : Bool) (gameNumber : Nat) (msg : List Char)
        (predNumero : Nat) (pred : LivePred), pred.verified = true →
        verify_active_prediction rOffset editOk gameNumber msg predNumero pred = pred)
    ∧ (∀ (editOk : Bool) (gameNumber : Int) (msg : List Char) (pred : ExcelPred),
        pred.verified = true →
        verify_excel_predictions_step editOk gameNumber msg pred = (pred, none)) := by
  constructor
  · intro rOffset editOk gameNumber msg predNumero pred h
    unfold verify_active_prediction
    rw [h]
    simp
  · intro editOk gameNumber msg pred h
    unfold verify_excel_predictions_step
    rw [h]
    simp

/-- C8 witness. -/
theorem c8_terminal_finality_witness :
    verify_active_prediction 2 true 5 ['✅'] 3
        { expected := Winner.joueur, attempts := 1, verified := true,
          status := some PredStatus.failure, hasRefs := true }
      = { expected := Winner.joueur, attempts := 1, verified := true,
          status := some PredStatus.failure, hasRefs := true }
    ∧ verify_excel_predictions_step true 5 ['✅']
        { predHundred with verified := true }
      = ({ predHundred with verified := true }, none) :=
  ⟨c8_terminal_finality.1 2 true 5 ['✅'] 3
      { expected := Winner.joueur, attempts := 1, verified := true,
        status := some PredStatus.failure, hasRefs := true } rfl,
   c8_terminal_finality.2 true 5 ['✅'] { predHundred with verified := true } rfl⟩

/-- The reconciliation always yields the real offset. -/
theorem reconciled_offset_eq (g p off : Int) :
    reconciled_offset g p off = g - p := by
  unfold reconciled_offset
  split
  · rfl
  · omega

/-- Invariant of the import loop: the retained keys never contain an
element equal to its predecessor plus one, and when a comparison point
`l` is carried in, the first retained key is never `l + 1`. -/
theorem import_excel_rows_chain :
    ∀ (rows : List (Int × List Char)) (last : Option Int),
      List.Chain' (fun a b => b ≠ a + 1) ((import_excel_rows last rows).map Prod.fst)
      ∧ (∀ l : Int, last = some l →
          ∀ k, ((import_excel_rows last rows).map Prod.fst).head? = some k →
            k ≠ l + 1) := by
  intro rows
  induction rows with
  | nil =>
    intro last
    constructor
    · simp [import_excel_rows]
    · intro l _ k hk
      simp [import_excel_rows] at hk
  | cons r rest ih =>
    intro last
    obtain ⟨n, v⟩ := r
    match last with
    | none =>
      simp only [import_excel_rows, List.map_cons]
      constructor
      · rw [List.chain'_cons']
        exact ⟨fun b hb => (ih (some n)).2 n rfl b hb, (ih (some n)).1⟩
      · intro l h
        cases h
    | some l =>
      by_cases hc : n = l + 1
      · simp only [import_excel_rows, if_pos hc]
        constructor
        · exact (ih (some l)).1
        · intro l2 h k hk
          cases h
          exact (ih (some l)).2 l rfl k hk
      · simp only [import_excel_rows, if_neg hc, List.map_cons]
        constructor
        · rw [List.chain'_cons']
          exact ⟨fun b hb => (ih (some n)).2 n rfl b hb, (ih (some n)).1⟩
        · intro l2 h k hk
          cases h
          simp only [List.head?_cons, Option.some_inj] at hk
          omega

/-- An unlaunched in-window candidate that passes the consecutive filter
ends the scan marked launched and skipped_consecutive, whatever the
accumulators are. -/
theorem find_close_marks :
    ∀ (preds : List (Int × ExcelPred)) (last : Option Int) (current tol : Int)
      (minDiff : Option Int) (closest : Option (Int × ExcelPred))
      (k : Int) (p : ExcelPred),
      (k, p) ∈ preds → p.launched = false →
      0 ≤ p.numero - current → p.numero - current ≤ tol →
      isConsecutiveToLast last p.numero = true →
      (k, { p with launched := true, skippedConsecutive := true }) ∈
        (find_close_prediction_aux last current tol preds minDiff closest).1 := by
  intro preds
  induction preds with
  | nil =>
    intro last current tol minDiff closest k p hmem
    cases hmem
  | cons hd rest ih =>
    intro last current tol minDiff closest k p hmem hl h0 htol hcons
    obtain ⟨k0, p0⟩ := hd
    rcases List.mem_cons.mp hmem with heq | hmem2
    · injection heq with hk hp
      subst hk
      subst hp
      unfold find_close_prediction_aux
      rw [if_neg (by simp only [hl]; decide), if_pos ⟨h0, htol⟩, if_pos hcons]
      exact List.mem_cons_self _ _
    · unfold find_close_prediction_aux
      by_cases hL : p0.launched = true
      · rw [if_pos hL]
        exact List.mem_cons_of_mem _ (ih _ _ _ _ _ k p hmem2 hl h0 htol hcons)
      · rw [if_neg hL]
        by_cases hW : 0 ≤ p0.numero - current ∧ p0.numero - current ≤ tol
        · rw [if_pos hW]
          by_cases hC : isConsecutiveToLast last p0.numero = true
          · rw [if_pos hC]
            exact List.mem_cons_of_mem _ (ih _ _ _ _ _ k p hmem2 hl h0 htol hcons)
          · rw [if_neg hC]
            by_cases hI : improvesMin minDiff (p0.numero - current) = true
            · rw [if_pos hI]
              exact List.mem_cons_of_mem _ (ih _ _ _ _ _ k p hmem2 hl h0 htol hcons)
            · rw [if_neg hI]
              exact List.mem_cons_of_mem _ (ih _ _ _ _ _ k p hmem2 hl h0 htol hcons)
        · rw [if_neg hW]
          exact List.mem_cons_of_mem _ (ih _ _ _ _ _ k p hmem2 hl h0 htol hcons)

/-- The scan only ever selects a candidate that is unlaunched and passes
the consecutive filter, provided the incoming accumulator does. -/
theorem find_close_selected :
    ∀ (preds : List (Int × ExcelPred)) (last : Option Int) (current tol : Int)
      (minDiff : Option Int) (closest : Option (Int × ExcelPred)),
      (∀ kp : Int × ExcelPred, closest = some kp →
        isConsecutiveToLast last kp.2.numero = false ∧ kp.2.launched = false) →
      ∀ kp : Int × ExcelPred,
        (find_close_prediction_aux last current tol preds minDiff closest).2 = some kp →
        isConsecutiveToLast last kp.2.numero = false ∧ kp.2.launched = false := by
  intro preds
  induction preds with
  | nil =>
    intro last current tol minDiff closest hinv kp hkp
    exact hinv kp hkp
  | cons hd rest ih =>
    intro last current tol minDiff closest hinv kp hkp
    obtain ⟨k0, p0⟩ := hd
    unfold find_close_prediction_aux at hkp
    by_cases hL : p0.launched = true
    · rw [if_pos hL] at hkp
      exact ih _ _ _ _ _ hinv kp hkp
    · rw [if_neg hL] at hkp
      by_cases hW : 0 ≤ p0.numero - current ∧ p0.numero - current ≤ tol
      · rw [if_pos hW] at hkp
        by_cases hC : isConsecutiveToLast last p0.numero = true
        · rw [if_pos hC] at hkp
          exact ih _ _ _ _ _ hinv kp hkp
        · rw [if_neg hC] at hkp
          by_cases hI : improvesMin minDiff (p0.numero - current) = true
          · rw [if_pos hI] at hkp
            refine ih _ _ _ _ _ ?_ kp hkp
            intro kp2 hkp2
            injection hkp2 with h2
            subst h2
            simp only [Bool.not_eq_true] at hC hL
            exact ⟨hC, hL⟩
          · rw [if_neg hI] at hkp
            exact ih _ _ _ _ _ hinv kp hkp
      · rw [if_neg hW] at hkp
        exact ih _ _ _ _ _ hinv kp hkp

/-- C2 (amended): a failed first-group extraction leaves a live-tracker
record unchanged as long as its offset has not overrun the cap, and in
the imported tracker a failed extraction yields no decision when the
message carries 🔰 — but on a message carrying ✅ without 🔰 at an
in-range offset it resolves the prediction to FAILURE. -/
theorem c2_amended_holds :
    (∀ (rOffset : Nat) (editOk : Bool) (gameNumber : Nat) (msg : List Char)
        (predNumero : Nat) (pred : LivePred),
        extract_points_and_winner msg = none →
        gameNumber ≤ predNumero + rOffset →
        verify_active_prediction rOffset editOk gameNumber msg predNumero pred = pred)
    ∧ (∀ (gameNumber predictedNumero currentOffset : Int) (msg w : List Char),
        extract_points_and_winner msg = none →
        msg.contains '🔰' = true →
        gameNumber - predictedNumero ≤ 2 →
        verify_excel_prediction gameNumber msg predictedNumero w currentOffset
          = (none, true))
    ∧ (∀ (gameNumber predictedNumero currentOffset : Int) (msg w : List Char),
        extract_points_and_winner msg = none →
        msg.contains '✅' = true → msg.contains '🔰' = false →
        msg.contains '⏰' = false → msg.contains '🕐' = false →
        0 ≤ gameNumber - predictedNumero → gameNumber - predictedNumero ≤ 2 →
        verify_excel_prediction gameNumber msg predictedNumero w currentOffset
          = (some PredStatus.failure, false)) := by
  refine ⟨?_, ?_, ?_⟩
  · intro rOffset editOk gameNumber msg predNumero pred hx hle
    unfold verify_active_prediction
    split
    · rfl
    split
    · rfl
    split
    · rfl
    rw [if_neg (by omega)]
    split
    · split
      · rfl
      · rw [hx]
    · rfl
  · intro g p off msg w hx hbo hle
    unfold verify_excel_prediction
    split
    · rfl
    rw [if_neg (by omega), reconciled_offset_eq, if_neg (by omega : ¬ g ≠ p + (g - p))]
    split
    · rfl
    rw [if_neg (by simp only [hbo, Bool.or_true]; decide), hx,
        if_neg (by simp only [hbo, Bool.not_true, Bool.and_false]; decide)]
  · intro g p off msg w hx hv hbo hto hcl h0 hle
    unfold verify_excel_prediction
    rw [if_neg (by omega), if_neg (by omega), reconciled_offset_eq,
        if_neg (by omega : ¬ g ≠ p + (g - p)),
        if_neg (by simp only [hto, hcl, Bool.or_false]; decide),
        if_neg (by simp only [hv, Bool.true_or]; decide), hx,
        if_pos (by simp only [hv, hbo, Bool.not_false, Bool.and_true])]

/-- C2 witness. -/
theorem c2_amended_witness :
    verify_active_prediction 2 true 884 ['✅'] 882 (fresh_live_pred Winner.joueur)
      = fresh_live_pred Winner.joueur
    ∧ verify_excel_prediction 883 ['🔰'] 882 victJoueur 1 = (none, true)
    ∧ verify_excel_prediction 882 ['✅', 'x'] 882 victJoueur 0
      = (some PredStatus.failure, false) :=
  ⟨c2_amended_holds.1 2 true 884 ['✅'] 882 (fresh_live_pred Winner.joueur)
      (by decide) (by decide),
   c2_amended_holds.2.1 883 882 1 ['🔰'] victJoueur (by decide) (by decide) (by decide),
   c2_amended_holds.2.2 882 882 0 ['✅', 'x'] victJoueur (by decide) (by decide)
      (by decide) (by decide) (by decide) (by decide) (by decide)⟩

/-- C3: counterexample.  On the same concrete input the verification
pass decides SUCCESS (with a succeeding edit the record ends verified),
yet when the transport edit raises, the in-memory record does NOT end
the pass with verified = true: the transition is lost and the record
stays pending. -/
theorem c3_counterexample :
    (verify_active_prediction 2 true 883 msg883 882 (fresh_live_pred Winner.joueur)).verified
        = true
    ∧ (verify_active_prediction 2 false 883 msg883 882 (fresh_live_pred Winner.joueur)).verified
        = false
    ∧ verify_active_prediction 2 false 883 msg883 882 (fresh_live_pred Winner.joueur)
        = { fresh_live_pred Winner.joueur with attempts := 1 } := by
  exact ⟨by decide, by decide, by decide⟩

/-- C3 (amended): the expiry path (offset beyond the cap) records
FAILURE whether or not the transport edit succeeds; the threshold-decided
terminal outcomes (success, and failure at the last allowed offset) are
recorded only when the edit succeeds — with a succeeding edit both are
recorded together with the consumed attempt. -/
theorem c3_amended_holds :
    (∀ (rOffset : Nat) (editOk : Bool) (gameNumber : Nat) (msg : List Char)
        (predNumero : Nat) (pred : LivePred),
        is_finalized_message msg = true → pred.verified = false →
        predNumero + rOffset < gameNumber →
        verify_active_prediction rOffset editOk gameNumber msg predNumero pred
          = { pred with verified := true, status := some PredStatus.failure,
                        attempts := rOffset + 1 })
    ∧ (∀ (rOffset gameNumber : Nat) (msg : List Char) (predNumero : Nat)
        (pred : LivePred) (point : Nat),
        is_finalized_message msg = true → pred.verified = false →
        predNumero ≤ gameNumber → gameNumber - predNumero ≤ rOffset →
        pred.attempts < gameNumber - predNumero → pred.hasRefs = true →
        extract_points_and_winner msg = some point →
        (match pred.expected with
         | Winner.joueur => decide ((point : ℚ) > mkRat 13 2)
         | Winner.banquier => decide ((point : ℚ) < mkRat 9 2)) = true →
        verify_active_prediction rOffset true gameNumber msg predNumero pred
          = { pred with attempts := gameNumber - predNumero, verified := true,
                        status := some (PredStatus.success (gameNumber - predNumero)) })
    ∧ (∀ (rOffset gameNumber : Nat) (msg : List Char) (predNumero : Nat)
        (pred : LivePred) (point : Nat),
        is_finalized_message msg = true → pred.verified = false →
        predNumero ≤ gameNumber → gameNumber - predNumero ≤ rOffset →
        pred.attempts < gameNumber - predNumero → pred.hasRefs = true →
        extract_points_and_winner msg = some point →
        (match pred.expected with
         | Winner.joueur => decide ((point : ℚ) > mkRat 13 2)
         | Winner.banquier => decide ((point : ℚ) < mkRat 9 2)) = false →
        rOffset ≤ gameNumber - predNumero →
        verify_active_prediction rOffset true gameNumber msg predNumero pred
          = { pred with attempts := gameNumber - predNumero, verified := true,
                        status := some PredStatus.failure }) := by
  refine ⟨?_, ?_, ?_⟩
  · intro rOffset editOk g msg p pred hfin hnv hlt
    unfold verify_active_prediction
    rw [if_neg (by simp only [hfin]; decide),
        if_neg (by simp only [hnv]; decide),
        if_neg (by omega), if_pos (by omega)]
  · intro rOffset g msg p pred point hfin hnv hpg hcap hatt href hx hcond
    unfold verify_active_prediction
    rw [if_neg (by simp only [hfin]; decide),
        if_neg (by simp only [hnv]; decide),
        if_neg (by omega), if_neg (by omega), if_pos hatt,
        if_neg (by simp only [href]; decide)]
    simp only [hx]
    rw [if_pos hcond, if_pos trivial]
  · intro rOffset g msg p pred point hfin hnv hpg hcap hatt href hx hcond hge
    unfold verify_active_prediction
    rw [if_neg (by simp only [hfin]; decide),
        if_neg (by simp only [hnv]; decide),
        if_neg (by omega), if_neg (by omega), if_pos hatt,
        if_neg (by simp only [href]; decide)]
    simp only [hx]
    rw [if_neg (by simp only [hcond]; decide), if_pos hge, if_pos trivial]

/-- C3 witness. -/
theorem c3_amended_witness :
    verify_active_prediction 2 false 886 ['✅'] 882 (fresh_live_pred Winner.joueur)
      = { fresh_live_pred Winner.joueur with verified := true,
                                             status := some PredStatus.failure,
                                             attempts := 3 }
    ∧ verify_active_prediction 2 true 883 msg883 882 (fresh_live_pred Winner.joueur)
      = { fresh_live_pred Winner.joueur with attempts := 1, verified := true,
                                             status := some (PredStatus.success 1) }
    ∧ verify_active_prediction 1 true 883 msg883 882 (fresh_live_pred Winner.banquier)
      = { fresh_live_pred Winner.banquier with attempts := 1, verified := true,
                                               status := some PredStatus.failure } :=
  ⟨c3_amended_holds.1 2 false 886 ['✅'] 882 (fresh_live_pred Winner.joueur)
      (by decide) (by decide) (by decide),
   c3_amended_holds.2.1 2 883 msg883 882 (fresh_live_pred Winner.joueur) 8
      (by decide) (by decide) (by decide) (by decide) (by decide) (by decide)
      (by decide) (by decide),
   c3_amended_holds.2.2 1 883 msg883 882 (fresh_live_pred Winner.banquier) 8
      (by decide) (by decide) (by decide) (by decide) (by decide) (by decide)
      (by decide) (by decide) (by decide)⟩

/-- C4: imported-tracker threshold correctness.  At the exact target
offset, on a finalized message without in-edit markers, with extracted
first-group point p: expecting joueur succeeds iff p ≥ 7, expecting
banquier succeeds iff p ≤ 4, and p = 5 or p = 6 never yields a success
status. -/
theorem c4_thresholds :
    ∀ (gameNumber predictedNumero currentOffset : Int) (msg w : List Char)
      (point : Nat),
      gameNumber = predictedNumero + currentOffset →
      0 ≤ currentOffset → currentOffset ≤ 2 →
      msg.contains '⏰' = false → msg.contains '🕐' = false →
      is_finalized_message msg = true →
      extract_points_and_winner msg = some point →
      ((expected_of_victoire w = Winner.joueur →
        ((verify_excel_prediction gameNumber msg predictedNumero w currentOffset).1
            = some (PredStatus.success currentOffset.toNat) ↔ 7 ≤ point))
       ∧ (expected_of_victoire w = Winner.banquier →
        ((verify_excel_prediction gameNumber msg predictedNumero w currentOffset).1
            = some (PredStatus.success currentOffset.toNat) ↔ point ≤ 4))
       ∧ ((point = 5 ∨ point = 6) →
        ∀ n, (verify_excel_prediction gameNumber msg predictedNumero w currentOffset).1
            ≠ some (PredStatus.success n))) := by
  intro g p off msg w point hg h0 h2 hto hcl hfin hx
  subst hg
  unfold verify_excel_prediction
  rw [if_neg (by omega), if_neg (by omega), reconciled_offset_eq,
      if_neg (by omega : ¬ p + off ≠ p + (p + off - p)),
      if_neg (by simp only [hto, hcl, Bool.or_false]; decide),
      if_neg (by unfold is_finalized_message at hfin; simp only [hfin]; decide)]
  simp only [hx]
  have hoff : p + off - p = off := by omega
  rw [hoff]
  refine ⟨?_, ?_, ?_⟩
  · intro hj
    rw [hj]
    by_cases h7 : 7 ≤ point
    · rw [if_pos (by simp only [decide_eq_true_eq]; exact h7)]
      constructor
      · intro _
        exact h7
      · intro _
        interval_cases off <;> simp
    · rw [if_neg (by simp only [decide_eq_true_eq]; exact h7)]
      constructor
      · intro hcontra
        split at hcontra
        · cases hcontra
        · cases hcontra
      · intro hc
        exact absurd hc h7
  · intro hb
    rw [hb]
    by_cases h4 : point ≤ 4
    · rw [if_pos (by simp only [decide_eq_true_eq]; exact h4)]
      constructor
      · intro _
        exact h4
      · intro _
        interval_cases off <;> simp
    · rw [if_neg (by simp only [decide_eq_true_eq]; exact h4)]
      constructor
      · intro hcontra
        split at hcontra
        · cases hcontra
        · cases hcontra
      · intro hc
        exact absurd hc h4
  · intro h56 n
    rw [if_neg (by
      cases hE : expected_of_victoire w <;> simp only [decide_eq_true_eq] <;> omega)]
    split
    · simp
    · simp

/-- C4 witness. -/
theorem c4_thresholds_witness :
    (verify_excel_prediction 882 msg882 882 victJoueur 0).1
      = some (PredStatus.success 0) :=
  ((c4_thresholds 882 882 0 msg882 victJoueur 8 (by decide) (by decide) (by decide)
      (by decide) (by decide) (by decide) (by decide)).1 (by decide)).mpr (by decide)

/-- C6: consecutive-identifier suppression at import.  For the input
identifier sequence [56, 57, 59, 60, 61] the retained keys are exactly
[56, 59, 61]: 57 is dropped (consecutive to 56) and 59 is retained; and
in general the retained key sequence never contains an identifier equal
to its retained predecessor plus one (a dropped identifier never becomes
the comparison point). -/
theorem c6_consecutive_import :
    ((import_excel [(56, victJoueur), (57, victJoueur), (59, victJoueur),
        (60, victJoueur), (61, victJoueur)]).map Prod.fst = [56, 59, 61])
    ∧ ((57 : Int) ∉ (import_excel [(56, victJoueur), (57, victJoueur), (59, victJoueur),
        (60, victJoueur), (61, victJoueur)]).map Prod.fst)
    ∧ ((59 : Int) ∈ (import_excel [(56, victJoueur), (57, victJoueur), (59, victJoueur),
        (60, victJoueur), (61, victJoueur)]).map Prod.fst)
    ∧ (∀ rows : List (Int × List Char),
        List.Chain' (fun a b => b ≠ a + 1) ((import_excel rows).map Prod.fst)) :=
  ⟨by decide, by decide, by decide,
   fun rows => (import_excel_rows_chain rows none).1⟩

/-- C7: consecutive-to-last-launched suppression at activation.  Every
unlaunched candidate inside the tolerance window equal to
last_launched + 1 (with a truthy last_launched) ends the scan marked
launched and skipped_consecutive; the scan never returns such a
candidate; and in the concrete two-candidate scenario the scan marks 57
and still returns 59, the smallest-gap eligible candidate. -/
theorem c7_consecutive_launch :
    (∀ (preds : List (Int × ExcelPred)) (l current : Int) (k : Int) (p : ExcelPred),
        (k, p) ∈ preds → p.launched = false →
        0 ≤ p.numero - current → p.numero - current ≤ 4 →
        l ≠ 0 → p.numero = l + 1 →
        (k, { p with launched := true, skippedConsecutive := true }) ∈
          (find_close_prediction (some l) current preds).1)
    ∧ (∀ (preds : List (Int × ExcelPred)) (l current : Int) (kp : Int × ExcelPred),
        l ≠ 0 →
        (find_close_prediction (some l) current preds).2 = some kp →
        kp.2.numero ≠ l + 1 ∧ kp.2.launched = false)
    ∧ (find_close_prediction (some 56) 56
          [(57, fresh_excel_pred 57 victJoueur), (59, fresh_excel_pred 59 victJoueur)]
        = ([(57, { fresh_excel_pred 57 victJoueur with launched := true, skippedConsecutive := true }),
            (59, fresh_excel_pred 59 victJoueur)],
           some (59, fresh_excel_pred 59 victJoueur))) := by
  refine ⟨?_, ?_, by decide⟩
  · intro preds l current k p hmem hl h0 htol hlz hnum
    exact find_close_marks preds (some l) current 4 none none k p hmem hl h0 htol
      (by simp only [isConsecutiveToLast, decide_eq_true_eq]; exact ⟨hlz, hnum⟩)
  · intro preds l current kp hlz hkp
    have h := find_close_selected preds (some l) current 4 none none
      (by intro kp2 hkp2; cases hkp2) kp hkp
    refine ⟨?_, h.2⟩
    have h1 := h.1
    simp only [isConsecutiveToLast, decide_eq_false_iff_not] at h1
    intro habs
    exact h1 ⟨hlz, habs⟩

/-- C7 witness. -/
theorem c7_consecutive_launch_witness :
    (57, { fresh_excel_pred 57 victJoueur with launched := true, skippedConsecutive := true }) ∈
      (find_close_prediction (some 56) 56
        [(57, fresh_excel_pred 57 victJoueur),
         (59, fresh_excel_pred 59 victJoueur)]).1 :=
  c7_consecutive_launch.1
    [(57, fresh_excel_pred 57 victJoueur), (59, fresh_excel_pred 59 victJoueur)]
    56 56 57 (fresh_excel_pred 57 victJoueur)
    (by decide) (by decide) (by decide) (by decide) (by decide) (by decide)

/-- C10: in the live tracker, verification at offset 0 never happens:
a message whose game number equals the predicted number leaves every
record unchanged (in particular the freshly registered record, whose
attempts count reads as 0), and the status token ✅0️⃣ (success at
attempt index 0) is never newly produced by a verification step. -/
theorem c10_offset_zero_unreachable :
    (∀ (rOffset : Nat) (editOk : Bool) (msg : List Char) (predNumero : Nat)
        (pred : LivePred),
        verify_active_prediction rOffset editOk predNumero msg predNumero pred = pred)
    ∧ (∀ (rOffset : Nat) (editOk : Bool) (gameNumber : Nat) (msg : List Char)
        (predNumero : Nat) (pred : LivePred),
        (verify_active_prediction rOffset editOk gameNumber msg predNumero pred).status
          = some (PredStatus.success 0) →
        pred.status = some (PredStatus.success 0)) := by
  constructor
  · intro rOffset editOk msg predNumero pred
    unfold verify_active_prediction
    split
    · rfl
    split
    · rfl
    split
    · rfl
    rw [Nat.sub_self]
    simp
  · intro rOffset editOk g msg p pred h
    unfold verify_active_prediction at h
    split at h
    · exact h
    split at h
    · exact h
    split at h
    · exact h
    split at h
    · simp at h
    split at h
    · split at h
      · exact h
      · split at h
        · exact h
        · split at h
          · split at h
            · simp at h
              omega
            · exact h
          · split at h
            · split at h
              · simp at h
              · exact h
            · exact h
    · exact h

/-- C10 witness. -/
theorem c10_offset_zero_unreachable_witness :
    ({ expected := Winner.joueur, attempts := 0, verified := true,
       status := some (PredStatus.success 0), hasRefs := true } : LivePred).status
      = some (PredStatus.success 0) :=
  c10_offset_zero_unreachable.2 2 true 5 [] 3
    { expected := Winner.joueur, attempts := 0, verified := true,
      status := some (PredStatus.success 0), hasRefs := true }
    (by decide)

end PredBot
